import Mathlib

/- Shallow embedding of the analytics core of the swing-trader dashboard
   (src/dashboard.py, a single-file React component).  All arithmetic is
   modelled over the rationals.  JavaScript peculiarities that the code
   relies on are modelled explicitly:
   - ToNumber(null) = 0 (jsNum below);
   - the 2-decimal rounding helper on line 24, including its use of
     Number.EPSILON, with Math.round x = floor (x + 1/2);
   - truthiness of form fields: an empty input is modelled as none, a
     filled input as some value. -/

namespace SwingTrader

/-- Position direction of a trade (the select input offers long and short). -/
inductive PositionType
| long
| short
deriving DecidableEq

/-- Calendar date; the code stores ISO date strings and compares them via
    the Date constructor.  Comparison and month grouping only need the
    year, month and day components. -/
structure Date where
  y : Nat
  m : Nat
  d : Nat
deriving DecidableEq

/-- Numeric key ordering valid dates chronologically (YYYYMMDD layout),
    mirroring comparison of JS Date timestamps. -/
def Date.key (dt : Date) : Nat := dt.y * 10000 + dt.m * 100 + dt.d

/-- Month bucket of a date (YYYYMM layout), mirroring the YYYY-MM string
    keys built in monthlyReturnsFromEquity; lexicographic order on those
    strings agrees with numeric order on this key for 4-digit years. -/
def Date.monthKey (dt : Date) : Nat := dt.y * 100 + dt.m

/-- Trade record as stored in the collection (built by handleSubmit in
    src/dashboard.py; nullable fields are Options). -/
structure Trade where
  id : String
  symbol : String
  entryDate : Date
  exitDate : Option Date
  entryPrice : ℚ
  exitPrice : Option ℚ
  positionType : PositionType
  quantity : ℚ
  commission : ℚ
  stopLoss : Option ℚ
  takeProfit : Option ℚ
  strategy : String
  notes : String
deriving DecidableEq

/-- JS ToNumber coercion on a nullable number: null coerces to 0 inside
    arithmetic.  Used where the code does arithmetic on possibly-null
    fields, e.g. calcPnL applied to tr.exitPrice in calculateEquityCurve. -/
def jsNum (o : Option ℚ) : ℚ := o.getD 0

/-- The toUpperCase call of handleSubmit, modelled character by character
    on the underlying list (symbols are ASCII tickers, where this agrees
    with the JS behaviour). -/
def jsToUpper (s : String) : String := String.mk (s.data.map Char.toUpper)

/-- Number.EPSILON as an exact rational. -/
def epsJs : ℚ := 1 / 2 ^ 52

/-- The round helper of src/dashboard.py line 24 at its default 2 digits:
    Math.round ((n + Number.EPSILON) * 100) / 100, where
    Math.round x = floor (x + 1/2). -/
def round2 (n : ℚ) : ℚ := ((⌊(n + epsJs) * 100 + 1 / 2⌋ : ℤ) : ℚ) / 100

/-- calcPnL (src/dashboard.py lines 26-29): directional raw P and L minus
    commission. -/
def calcPnL (entryPrice exitPrice qty : ℚ) (positionType : PositionType)
    (commission : ℚ) : ℚ :=
  let raw : ℚ :=
    match positionType with
    | PositionType.long => (exitPrice - entryPrice) * qty
    | PositionType.short => (entryPrice - exitPrice) * qty
  raw - commission

/-- calcReturnPct (src/dashboard.py lines 31-34): directional fractional
    return times 100. -/
def calcReturnPct (entryPrice exitPrice : ℚ) (positionType : PositionType) : ℚ :=
  let ret : ℚ :=
    match positionType with
    | PositionType.long => (exitPrice - entryPrice) / entryPrice
    | PositionType.short => (entryPrice - exitPrice) / entryPrice
  ret * 100

/-- Trade together with the derived pnl and ret fields attached by the
    tradesWithPnL memo (src/dashboard.py lines 141-147). -/
structure PTrade extends Trade where
  pnl : ℚ
  ret : ℚ
deriving DecidableEq

/-- Per-trade body of the tradesWithPnL memo (src/dashboard.py lines
    142-146): closed trades get the rounded calcPnL / calcReturnPct
    values, open trades get 0. -/
def tradeWithPnL (t : Trade) : PTrade :=
  let pnl : ℚ :=
    match t.exitPrice with
    | some x => calcPnL t.entryPrice x t.quantity t.positionType t.commission
    | none => 0
  let ret : ℚ :=
    match t.exitPrice with
    | some x => calcReturnPct t.entryPrice x t.positionType
    | none => 0
  { toTrade := t, pnl := round2 pnl, ret := round2 ret }

/-- tradesWithPnL (src/dashboard.py line 141-147). -/
def tradesWithPnL (trades : List Trade) : List PTrade := trades.map tradeWithPnL

/-- Point of the equity curve: date is none for the synthetic baseline. -/
structure EquityPoint where
  date : Option Date
  equity : ℚ
deriving DecidableEq

/-- Stable insertion of x into a list already sorted by key, placing x
    before the first strictly larger key and after equal keys already
    present when folding from the right (see sortKeyed). -/
def insortKeyed {α : Type} (key : α → Nat) (x : α) : List α → List α
  | [] => [x]
  | h :: t => if key x ≤ key h then x :: h :: t else h :: insortKeyed key x t

/-- Stable sort by a numeric key, modelling the stable JS Array.sort with
    a subtraction comparator (src/dashboard.py line 38). -/
def sortKeyed {α : Type} (key : α → Nat) : List α → List α
  | [] => []
  | h :: t => insortKeyed key h (sortKeyed key t)

/-- Sort key used by calculateEquityCurve: exit date, falling back to the
    entry date when the exit date is null. -/
def tradeSortKey (t : Trade) : Nat := (t.exitDate.getD t.entryDate).key

/-- Walk of calculateEquityCurve (src/dashboard.py lines 43-47): for EVERY
    trade of the sorted list - the code does not filter out open trades -
    recompute pnl with calcPnL on the raw fields (null exitPrice coerces
    to 0), accumulate unrounded, and emit a point with rounded equity. -/
def curvePoints : List Trade → ℚ → List EquityPoint
  | [], _ => []
  | tr :: rest, equity =>
    let pnl := calcPnL tr.entryPrice (jsNum tr.exitPrice) tr.quantity
      tr.positionType tr.commission
    let e2 := equity + pnl
    { date := some (tr.exitDate.getD tr.entryDate), equity := round2 e2 }
      :: curvePoints rest e2

/-- calculateEquityCurve (src/dashboard.py lines 36-49): baseline point
    with null date, then one point per trade of the sorted list.  The
    function reads only the base trade fields, so it is stated over Trade;
    the call site passes tradesWithPnL, whose mapping leaves those fields
    unchanged. -/
def calculateEquityCurve (trades : List Trade) (startingCapital : ℚ) :
    List EquityPoint :=
  let t := sortKeyed tradeSortKey trades
  { date := none, equity := startingCapital } :: curvePoints t startingCapital

/-- Equity of the last curve point (src/dashboard.py line 159 reads the
    last element of equitySeries). -/
def lastEquity (pts : List EquityPoint) : ℚ :=
  ((pts.getLast?).map (fun p => p.equity)).getD 0

/-- Modelled from the spec: the sum of pnl over closed trades (trades with
    a non-null exitPrice), the quantity the equity-curve guarantee of the
    spec is stated against. -/
def closedPnlSum (trades : List Trade) : ℚ :=
  ((trades.filter (fun t => t.exitPrice ≠ none)).map
    (fun t => calcPnL t.entryPrice (jsNum t.exitPrice) t.quantity
      t.positionType t.commission)).sum

/-- Step returns feeding the Sharpe ratio (src/dashboard.py lines
    162-167): one return per consecutive pair of equity points, skipping
    pairs whose previous equity is zero. -/
def dailyRets : List EquityPoint → List ℚ
  | p :: q :: rest =>
    (if p.equity ≠ 0 then [(q.equity - p.equity) / p.equity] else [])
      ++ dailyRets (q :: rest)
  | _ => []

/-- Arithmetic mean of a list of rationals (the avg of calcSharpe). -/
def mean (l : List ℚ) : ℚ := l.sum / (l.length : ℚ)

/-- Population variance (the quantity under the square root in calcSharpe,
    src/dashboard.py line 54: division by the list length, not length-1). -/
def popVar (l : List ℚ) : ℚ :=
  ((l.map (fun v => (v - mean l) ^ 2)).sum) / (l.length : ℚ)

open Classical in
/-- calcSharpe (src/dashboard.py lines 51-58): 0 for an empty return list,
    0 when the standard deviation is zero, otherwise the annualized ratio
    with the square root of 252. -/
noncomputable def calcSharpe (dailyReturns : List ℚ) (riskFreeRate : ℚ) : ℝ :=
  if dailyReturns = [] then 0
  else
    let avg := mean dailyReturns
    let std : ℝ := Real.sqrt ((popVar dailyReturns : ℚ) : ℝ)
    if std = 0 then 0
    else (((avg : ℚ) : ℝ) - ((riskFreeRate : ℚ) : ℝ)) / std * Real.sqrt 252

/-- Modelled from the spec: one return per consecutive pair of
    equity-curve points, as (equity i - equity (i-1)) / equity (i-1),
    skipping pairs where the denominator is zero, written independently of
    the source loop via zip with the tail. -/
def specStepReturns (pts : List EquityPoint) : List ℚ :=
  (pts.zip pts.tail).filterMap (fun pq =>
    if pq.1.equity = 0 then none
    else some ((pq.2.equity - pq.1.equity) / pq.1.equity))

/-- Value of the profit factor: a finite rational or the JS Infinity. -/
inductive PFValue
| val (q : ℚ)
| inf
deriving DecidableEq

/-- Gross wins of calcProfitFactor (src/dashboard.py line 73): sum of the
    strictly positive pnl values. -/
def grossWins (trades : List PTrade) : ℚ :=
  ((trades.filter (fun t => 0 < t.pnl)).map (fun t => t.pnl)).sum

/-- Gross losses of calcProfitFactor (src/dashboard.py line 74): absolute
    value of the sum of the strictly negative pnl values. -/
def grossLosses (trades : List PTrade) : ℚ :=
  |((trades.filter (fun t => t.pnl < 0)).map (fun t => t.pnl)).sum|

/-- calcProfitFactor (src/dashboard.py lines 72-77). -/
def calcProfitFactor (trades : List PTrade) : PFValue :=
  if grossLosses trades = 0 then
    if 0 < grossWins trades then PFValue.inf else PFValue.val 0
  else PFValue.val (grossWins trades / grossLosses trades)

/-- Month keys present with a non-null date in the series, deduplicated
    and sorted ascending, mirroring Object.keys(map).sort() over the
    YYYY-MM strings of monthlyReturnsFromEquity. -/
def monthKeysOf (pts : List EquityPoint) : List Nat :=
  sortKeyed (fun k => k) ((pts.filterMap (fun p => p.date.map Date.monthKey)).dedup)

/-- Equity of the last point of the given month in series order: the JS
    object map is overwritten by each later point of the same month. -/
def lastEquityInMonth (pts : List EquityPoint) (k : Nat) : ℚ :=
  (((pts.filter (fun p => p.date.map Date.monthKey = some k)).getLast?).map
    (fun p => p.equity)).getD 0

/-- Loop of monthlyReturnsFromEquity (src/dashboard.py lines 90-99).  The
    Option in the result models the JS number: some q is a finite value,
    none is the non-finite value (Infinity or NaN) produced when the code
    divides by a previous-month equity of zero - the code tests prev
    against null only, not against 0. -/
def monthlyRetsGo (pts : List EquityPoint) :
    List Nat → Option ℚ → List (Nat × Option ℚ)
  | [], _ => []
  | k :: ks, prev =>
    let val := lastEquityInMonth pts k
    (match prev with
     | none => (k, some 0)
     | some pv =>
       (k, if pv = 0 then none else some (round2 ((val - pv) / pv * 100))))
      :: monthlyRetsGo pts ks (some val)

/-- monthlyReturnsFromEquity (src/dashboard.py lines 79-101). -/
def monthlyReturnsFromEquity (pts : List EquityPoint) : List (Nat × Option ℚ) :=
  monthlyRetsGo pts (monthKeysOf pts) none

/-- Closed trades of the collection (exitPrice non-null), the filter the
    win-rate denominator uses (src/dashboard.py line 154). -/
def closedOf (trades : List PTrade) : List PTrade :=
  trades.filter (fun t => t.exitPrice ≠ none)

/-- winTrades (src/dashboard.py line 152). -/
def winTrades (trades : List PTrade) : List PTrade :=
  trades.filter (fun t => t.exitPrice ≠ none ∧ 0 < t.pnl)

/-- lossTrades (src/dashboard.py line 153). -/
def lossTrades (trades : List PTrade) : List PTrade :=
  trades.filter (fun t => t.exitPrice ≠ none ∧ t.pnl ≤ 0)

/-- winRate (src/dashboard.py line 154): guarded by the closed count. -/
def winRate (trades : List PTrade) : ℚ :=
  if (closedOf trades).length ≠ 0 then
    round2 (((winTrades trades).length : ℚ) / ((closedOf trades).length : ℚ) * 100)
  else 0

/-- avgWin (src/dashboard.py line 155): guarded by the winner count. -/
def avgWin (trades : List PTrade) : ℚ :=
  if (winTrades trades).length ≠ 0 then
    round2 (((winTrades trades).map (fun t => t.pnl)).sum
      / ((winTrades trades).length : ℚ))
  else 0

/-- avgLoss (src/dashboard.py line 156): guarded by the loser count. -/
def avgLoss (trades : List PTrade) : ℚ :=
  if (lossTrades trades).length ≠ 0 then
    round2 (((lossTrades trades).map (fun t => t.pnl)).sum
      / ((lossTrades trades).length : ℚ))
  else 0

/-- riskPerShare (src/dashboard.py line 436): directional distance between
    entry and stop under Math.abs; 0 when the stop-loss input is empty. -/
def riskPerShare (entryPrice : ℚ) (stopLoss : Option ℚ)
    (positionType : PositionType) : ℚ :=
  match stopLoss with
  | none => 0
  | some sl =>
    match positionType with
    | PositionType.long => |entryPrice - sl|
    | PositionType.short => |sl - entryPrice|

/-- riskAmount (src/dashboard.py line 437): the truthiness guard makes it
    0 whenever riskPerShare is 0 or the quantity input is empty; only
    otherwise is commission added. -/
def riskAmount (entryPrice : ℚ) (stopLoss : Option ℚ)
    (positionType : PositionType) (quantity : Option ℚ) (commission : ℚ) : ℚ :=
  if riskPerShare entryPrice stopLoss positionType ≠ 0 ∧ quantity ≠ none then
    riskPerShare entryPrice stopLoss positionType * jsNum quantity + commission
  else 0

/-- riskPctOfCapital (src/dashboard.py line 438): guarded by the capital. -/
def riskPctOfCapital (entryPrice : ℚ) (stopLoss : Option ℚ)
    (positionType : PositionType) (quantity : Option ℚ)
    (commission startingCapital : ℚ) : ℚ :=
  if startingCapital ≠ 0 then
    riskAmount entryPrice stopLoss positionType quantity commission
      / startingCapital * 100
  else 0

/-- Risk flag of the trade form (src/dashboard.py line 468): the warning
    class and the exceeds-limit text are shown exactly when the risk
    percent of capital is above maxRiskPct. -/
def riskFlagged (entryPrice : ℚ) (stopLoss : Option ℚ)
    (positionType : PositionType) (quantity : Option ℚ)
    (commission startingCapital maxRiskPct : ℚ) : Bool :=
  decide (maxRiskPct <
    riskPctOfCapital entryPrice stopLoss positionType quantity commission
      startingCapital)

/-- State of the add-trade form (src/dashboard.py TradeForm): empty text
    inputs are none, filled ones carry their parsed numeric value; the
    symbol is kept as a string, empty when missing. -/
structure FormState where
  symbol : String
  entryDate : Option Date
  entryPrice : Option ℚ
  exitDate : Option Date
  exitPrice : Option ℚ
  positionType : PositionType
  quantity : Option ℚ
  strategy : String
  notes : String
  commission : ℚ
  stopLoss : Option ℚ
  takeProfit : Option ℚ
deriving DecidableEq

/-- validate (src/dashboard.py lines 405-410): first failing check wins;
    none means the form is accepted. -/
def validate (f : FormState) : Option String :=
  if f.symbol = "" then some ("symbol required")
  else if f.entryDate = none ∨ f.entryPrice = none ∨ f.quantity = none then
    some ("entry date/price/quantity required")
  else if f.exitPrice ≠ none ∧ f.exitDate = none then
    some ("exit date required if exit price set")
  else none

/-- Trade built by handleSubmit (src/dashboard.py lines 416-429): the
    symbol is uppercased, empty optional inputs become null. -/
def mkTrade (f : FormState) (id : String) : Trade :=
  { id := id
    symbol := jsToUpper f.symbol
    entryDate := f.entryDate.getD { y := 0, m := 0, d := 0 }
    exitDate := f.exitDate
    entryPrice := jsNum f.entryPrice
    exitPrice := f.exitPrice
    positionType := f.positionType
    quantity := jsNum f.quantity
    commission := f.commission
    stopLoss := f.stopLoss
    takeProfit := f.takeProfit
    strategy := f.strategy
    notes := f.notes }

/-- handleSubmit plus addTrade (src/dashboard.py lines 412-433 and
    171-179): a failing validation leaves the collection unchanged, an
    accepted form appends the built trade. -/
def handleSubmit (f : FormState) (id : String) (trades : List Trade) :
    List Trade :=
  match validate f with
  | some _ => trades
  | none => trades ++ [mkTrade f id]

/-- updateTrade (src/dashboard.py lines 181-183).  The edit modal passes
    its whole form record, a spread copy of the trade with the edited
    fields replaced, so the merged record is exactly that form record. -/
def updateTrade (trades : List Trade) (id : String) (changes : Trade) :
    List Trade :=
  trades.map (fun t => if t.id = id then changes else t)

/-- Save path of EditTradeModal (src/dashboard.py lines 540-544): rejected
    only when the edited symbol is empty; no case normalization happens. -/
def editSave (trades : List Trade) (t : Trade) (form : Trade) : List Trade :=
  if form.symbol = "" then trades else updateTrade trades t.id form

/-- deleteTrade (src/dashboard.py lines 185-187). -/
def deleteTrade (trades : List Trade) (id : String) : List Trade :=
  trades.filter (fun t => t.id ≠ id)

/-- Invariant claimed by the spec data model: every stored symbol is
    case-normalized to uppercase. -/
def symbolsUpper (trades : List Trade) : Prop :=
  ∀ t ∈ trades, jsToUpper t.symbol = t.symbol

instance (trades : List Trade) : Decidable (symbolsUpper trades) :=
  List.decidableBAll _ trades

/-- Open long trade used as a concrete input: entry 100, quantity 10, no
    commission, no exit yet. -/
def openLongT : Trade :=
  { id := "t1", symbol := "AAPL", entryDate := { y := 2024, m := 1, d := 10 },
    exitDate := none, entryPrice := 100, exitPrice := none,
    positionType := PositionType.long, quantity := 10, commission := 0,
    stopLoss := none, takeProfit := none, strategy := "", notes := "" }

/-- Closed long trade whose exact pnl has three decimals: entry 1, exit
    1.111, quantity 1, no commission. -/
def closedCtrT : Trade :=
  { openLongT with
    id := "t2"
    entryPrice := 1
    exitPrice := some (1111 / 1000)
    exitDate := some ⟨2024, 2, 1⟩
    quantity := 1 }

/-- Closed long trade of scenario A: entry 100, exit 110, quantity 10, no
    commission. -/
def scenATrade : Trade :=
  { openLongT with
    id := "t3"
    exitPrice := some 110
    exitDate := some ⟨2024, 3, 1⟩ }

/-- Trade with a given pnl attached, for exercising the statistics that
    only read the pnl field. -/
def pnlOnly (p : ℚ) : PTrade := { toTrade := openLongT, pnl := p, ret := 0 }

/-- Concrete trade with identifier a. -/
def tA : Trade := { openLongT with id := "a" }

/-- Concrete trade with identifier b. -/
def tB : Trade := { openLongT with id := "b", symbol := "MSFT" }

/-- Edited copy of openLongT whose symbol was typed in lowercase. -/
def editedT : Trade := { openLongT with symbol := "tsla" }

/-- Form of scenario C: exit price filled while the exit date is empty. -/
def formC : FormState :=
  { symbol := "AAPL", entryDate := some { y := 2024, m := 1, d := 10 },
    entryPrice := some 100, exitDate := none, exitPrice := some 110,
    positionType := PositionType.long, quantity := some 10, strategy := "",
    notes := "", commission := 1, stopLoss := none, takeProfit := none }

/-- Equity series whose two months both end at equity 0. -/
def pts5 : List EquityPoint :=
  [{ date := some { y := 2024, m := 1, d := 15 }, equity := 0 },
   { date := some { y := 2024, m := 2, d := 15 }, equity := 0 }]

/-- Helper: evaluation rule for the round helper via the floor bounds. -/
theorem round2_eq (n : ℚ) (z : ℤ) (h1 : (z : ℚ) ≤ (n + epsJs) * 100 + 1 / 2)
    (h2 : (n + epsJs) * 100 + 1 / 2 < (z : ℚ) + 1) :
    round2 n = (z : ℚ) / 100 := by
  have h : ⌊(n + epsJs) * 100 + 1 / 2⌋ = z := Int.floor_eq_iff.mpr ⟨h1, h2⟩
  unfold round2
  rw [h]

/-- Helper: rounding 0 gives 0. -/
theorem round2_zero : round2 0 = 0 := by
  have := round2_eq 0 0 (by norm_num [epsJs]) (by norm_num [epsJs])
  simpa using this

/-- Helper: rounding 9000 gives 9000. -/
theorem round2_nine_thousand : round2 9000 = 9000 := by
  have := round2_eq 9000 900000 (by norm_num [epsJs]) (by norm_num [epsJs])
  norm_num at this
  exact this

/-- Helper: rounding 0.111 gives 0.11. -/
theorem round2_point111 : round2 (111 / 1000) = 11 / 100 := by
  have := round2_eq (111 / 1000) 11 (by norm_num [epsJs]) (by norm_num [epsJs])
  norm_num at this
  convert this using 1

/-- Claim C1 (amended): for a closed trade the attached pnl and returnPct
    are the stated directional formulas rounded half-up to two decimals by
    the round helper (the exact formulas are what calcPnL and
    calcReturnPct compute before rounding); for an open trade both
    attached values are 0. -/
theorem pnl_ret_attached (t : Trade) :
    (∀ x : ℚ, t.exitPrice = some x →
      (tradeWithPnL t).pnl =
        round2 ((if t.positionType = PositionType.long then x - t.entryPrice
          else t.entryPrice - x) * t.quantity - t.commission) ∧
      (tradeWithPnL t).ret =
        round2 ((if t.positionType = PositionType.long then x - t.entryPrice
          else t.entryPrice - x) / t.entryPrice * 100)) ∧
    (t.exitPrice = none →
      (tradeWithPnL t).pnl = 0 ∧ (tradeWithPnL t).ret = 0) := by
  constructor
  · intro x hx
    cases hpt : t.positionType <;>
      simp [tradeWithPnL, hx, calcPnL, calcReturnPct, hpt]
  · intro hx
    simp [tradeWithPnL, hx, round2_zero]

/-- Witness for claim C1: scenario A trade, long, entry 100, exit 110,
    quantity 10, commission 0, instantiating the closed-trade case. -/
theorem pnl_ret_attached_instance :
    (tradeWithPnL scenATrade).pnl =
      round2 ((if scenATrade.positionType = PositionType.long
        then (110 : ℚ) - scenATrade.entryPrice
        else scenATrade.entryPrice - 110) * scenATrade.quantity
          - scenATrade.commission) :=
  ((pnl_ret_attached scenATrade).1 110 rfl).1

/-- Counterexample to claim C1 as stated: the attached pnl of a closed
    long trade with entry 1, exit 1.111, quantity 1, commission 0 is the
    rounded 0.11, not the exact formula value 0.111. -/
theorem pnl_exact_claim_false :
    (tradeWithPnL closedCtrT).pnl = 11 / 100 ∧
    (jsNum closedCtrT.exitPrice - closedCtrT.entryPrice) * closedCtrT.quantity
      - closedCtrT.commission = 111 / 1000 ∧
    (tradeWithPnL closedCtrT).pnl ≠
      (jsNum closedCtrT.exitPrice - closedCtrT.entryPrice) * closedCtrT.quantity
        - closedCtrT.commission := by
  have h1 : (tradeWithPnL closedCtrT).pnl = round2 (111 / 1000) := by
    simp only [tradeWithPnL, closedCtrT, openLongT, calcPnL]
    norm_num
  have h2 := h1.trans round2_point111
  refine ⟨h2, by norm_num [closedCtrT, openLongT, jsNum], ?_⟩
  rw [h2]
  norm_num [closedCtrT, openLongT, jsNum]

/-- Helper: the equity curve of a collection with one open long trade. -/
theorem curve_open_eval :
    calculateEquityCurve [openLongT] 10000 =
      [{ date := none, equity := 10000 },
       { date := some ⟨2024, 1, 10⟩, equity := 9000 }] := by
  simp only [calculateEquityCurve, sortKeyed, insortKeyed, curvePoints,
    tradeSortKey, openLongT, jsNum, calcPnL, Option.getD]
  norm_num [round2_nine_thousand]

/-- Claim C2, evaluated at the failing input: calculateEquityCurve does
    not select closed trades, so a collection holding one open trade
    (which has zero closed trades) yields a curve with a second point
    whose equity treats the null exit price as 0, instead of the single
    baseline point the claim requires. -/
theorem equityCurve_open_trade_eval :
    calculateEquityCurve [openLongT] 10000 =
      [{ date := none, equity := 10000 },
       { date := some ⟨2024, 1, 10⟩, equity := 9000 }] ∧
    calculateEquityCurve [openLongT] 10000 ≠
      [{ date := none, equity := 10000 }] := by
  refine ⟨curve_open_eval, ?_⟩
  rw [curve_open_eval]
  simp

/-- Claim C3, evaluated at the failing input: for a collection holding one
    open trade the final curve value is 9000, while startingCapital plus
    the pnl sum over closed trades is 10000. -/
theorem finalEquity_open_trade_eval :
    lastEquity (calculateEquityCurve [openLongT] 10000) = 9000 ∧
    closedPnlSum [openLongT] = 0 ∧
    lastEquity (calculateEquityCurve [openLongT] 10000) ≠
      10000 + closedPnlSum [openLongT] := by
  have hs : closedPnlSum [openLongT] = 0 := by
    simp [closedPnlSum, openLongT]
  have hl : lastEquity (calculateEquityCurve [openLongT] 10000) = 9000 := by
    rw [curve_open_eval]
    rfl
  refine ⟨hl, hs, ?_⟩
  rw [hl, hs]
  norm_num

/-- Helper: gross wins are a sum of strictly positive values. -/
theorem grossWins_nonneg (trades : List PTrade) : 0 ≤ grossWins trades := by
  unfold grossWins
  apply List.sum_nonneg
  intro x hx
  simp only [List.mem_map, List.mem_filter, decide_eq_true_eq] at hx
  obtain ⟨t, ⟨-, ht⟩, rfl⟩ := hx
  exact le_of_lt ht

/-- Claim C4 (amended): the profit factor is grossWins / grossLosses
    whenever gross losses are nonzero, is infinity exactly when gross
    losses are 0 and gross wins positive, and is 0 exactly when gross wins
    are 0 (not only when both sums are 0). -/
theorem profitFactor_characterization (trades : List PTrade) :
    (grossLosses trades ≠ 0 →
      calcProfitFactor trades =
        PFValue.val (grossWins trades / grossLosses trades)) ∧
    (calcProfitFactor trades = PFValue.inf ↔
      grossLosses trades = 0 ∧ 0 < grossWins trades) ∧
    (calcProfitFactor trades = PFValue.val 0 ↔ grossWins trades = 0) := by
  have hw := grossWins_nonneg trades
  refine ⟨?_, ?_, ?_⟩
  · intro h
    simp [calcProfitFactor, h]
  · unfold calcProfitFactor
    split_ifs with h1 h2 <;> simp_all
  · unfold calcProfitFactor
    split_ifs with h1 h2
    · constructor
      · intro hcon
        simp at hcon
      · intro h0
        rw [h0] at h2
        exact absurd h2 (lt_irrefl 0)
    · have hz : grossWins trades = 0 := le_antisymm (not_lt.mp h2) hw
      simp [hz]
    · simp [div_eq_zero_iff, h1]

/-- Witness for claim C4: one winner of 10 and one loser of 4 put the
    profit factor in the finite-quotient case. -/
theorem profitFactor_characterization_instance :
    calcProfitFactor [pnlOnly 10, pnlOnly (-4)] =
      PFValue.val (grossWins [pnlOnly 10, pnlOnly (-4)]
        / grossLosses [pnlOnly 10, pnlOnly (-4)]) :=
  (profitFactor_characterization [pnlOnly 10, pnlOnly (-4)]).1 (by
    norm_num [grossLosses, pnlOnly, openLongT])

/-- Counterexample to claim C4 as stated: a single losing trade gives a
    profit factor of 0 while gross losses are 5, not 0, so the 0 case is
    not restricted to both sums being 0. -/
theorem profitFactor_zero_iff_false :
    calcProfitFactor [pnlOnly (-5)] = PFValue.val 0 ∧
    ¬ (grossWins [pnlOnly (-5)] = 0 ∧ grossLosses [pnlOnly (-5)] = 0) := by
  constructor
  · norm_num [calcProfitFactor, grossWins, grossLosses, pnlOnly, openLongT]
  · intro hcon
    have := hcon.2
    norm_num [grossLosses, pnlOnly, openLongT] at this

/-- Claim C5, evaluated at the failing input: monthly returns do not guard
    the previous-month equity against 0, so a series whose two months both
    end at equity 0 computes 0 / 0 for the second month, a non-finite
    value (modelled as none) instead of a sentinel; the win rate itself is
    guarded and is 0 for a collection with no closed trade. -/
theorem monthlyReturns_nan_eval :
    monthlyReturnsFromEquity pts5 = [(202401, some 0), (202402, none)] ∧
    winRate (tradesWithPnL [openLongT]) = 0 := by
  constructor
  · simp [monthlyReturnsFromEquity, monthKeysOf, pts5, Date.monthKey,
      sortKeyed, insortKeyed, monthlyRetsGo, lastEquityInMonth,
      List.dedup_cons_of_not_mem, List.dedup_nil]
  · simp [winRate, closedOf, tradesWithPnL, tradeWithPnL, openLongT]

/-- Helper: the loop of dailyRets agrees with the zip-with-tail
    formulation of the spec. -/
theorem dailyRets_eq_specStepReturns (pts : List EquityPoint) :
    dailyRets pts = specStepReturns pts := by
  induction pts with
  | nil => rfl
  | cons p tail ih =>
    cases tail with
    | nil => rfl
    | cons q rest =>
      have ih2 : dailyRets (q :: rest) =
          (List.zip (q :: rest) rest).filterMap (fun pq =>
            if pq.1.equity = 0 then none
            else some ((pq.2.equity - pq.1.equity) / pq.1.equity)) := by
        simpa [specStepReturns] using ih
      by_cases h : p.equity = 0
      · simp [dailyRets, specStepReturns, h, ih2]
      · simp [dailyRets, specStepReturns, h, ih2]

/-- Helper: the population variance is nonnegative. -/
theorem popVar_nonneg (l : List ℚ) : 0 ≤ popVar l := by
  unfold popVar
  apply div_nonneg
  · apply List.sum_nonneg
    intro x hx
    obtain ⟨v, -, rfl⟩ := List.mem_map.mp hx
    positivity
  · exact_mod_cast Nat.zero_le _

/-- Helper: case analysis of calcSharpe on an arbitrary return list. -/
theorem calcSharpe_cases (L : List ℚ) (rf : ℚ) :
    calcSharpe L rf =
      if L.length < 2 ∨ popVar L = 0 then 0
      else (((mean L : ℚ) : ℝ) - ((rf : ℚ) : ℝ))
        / Real.sqrt ((popVar L : ℚ) : ℝ) * Real.sqrt 252 := by
  unfold calcSharpe
  rcases L with _ | ⟨a, _ | ⟨b, rest⟩⟩
  · simp
  · have hv : popVar [a] = 0 := by
      simp [popVar, mean]
    simp [hv]
  · have hlen : ¬ ((a :: b :: rest).length < 2) := by
      simp only [List.length_cons]
      omega
    by_cases hv : popVar (a :: b :: rest) = 0
    · simp [hv, hlen, Real.sqrt_zero]
    · have hvpos : (0 : ℝ) ≤ ((popVar (a :: b :: rest) : ℚ) : ℝ) := by
        exact_mod_cast popVar_nonneg _
      have hsq : Real.sqrt ((popVar (a :: b :: rest) : ℚ) : ℝ) ≠ 0 := by
        rw [Ne, Real.sqrt_eq_zero hvpos]
        exact_mod_cast hv
      simp [hlen, hv, hsq]
      rw [if_neg (by omega : ¬ (rest.length + 1 + 1 < 2))]

/-- Claim C6: the Sharpe ratio is calcSharpe applied to one return per
    consecutive pair of equity points skipping zero denominators, equals
    the annualized mean-over-population-standard-deviation formula, and is
    0 when there are fewer than 2 returns or the variance (equivalently
    the standard deviation) is exactly 0. -/
theorem sharpe_spec (pts : List EquityPoint) (riskFreeRate : ℚ) :
    calcSharpe (dailyRets pts) riskFreeRate =
      if (specStepReturns pts).length < 2 ∨ popVar (specStepReturns pts) = 0
      then 0
      else (((mean (specStepReturns pts) : ℚ) : ℝ)
          - ((riskFreeRate : ℚ) : ℝ))
        / Real.sqrt ((popVar (specStepReturns pts) : ℚ) : ℝ)
        * Real.sqrt 252 := by
  rw [dailyRets_eq_specStepReturns]
  exact calcSharpe_cases _ _

/-- Claim C7 (amended): riskPerShare is the absolute entry-stop distance,
    0 when the stop is absent; riskAmount is riskPerShare times quantity
    plus commission only when riskPerShare is nonzero and the quantity
    field is filled, and 0 otherwise (commission is dropped in that case);
    riskPctOfCapital divides by a nonzero capital; the advisory flag holds
    exactly when the percentage exceeds maxRiskPct. -/
theorem risk_calculator_characterization (entryPrice : ℚ)
    (stopLoss : Option ℚ) (positionType : PositionType)
    (quantity : Option ℚ) (commission startingCapital maxRiskPct : ℚ) :
    riskPerShare entryPrice none positionType = 0 ∧
    (∀ sl : ℚ,
      riskPerShare entryPrice (some sl) positionType = |entryPrice - sl|) ∧
    (riskPerShare entryPrice stopLoss positionType = 0 ∨ quantity = none →
      riskAmount entryPrice stopLoss positionType quantity commission = 0) ∧
    (riskPerShare entryPrice stopLoss positionType ≠ 0 →
      ∀ q : ℚ, quantity = some q →
        riskAmount entryPrice stopLoss positionType quantity commission =
          riskPerShare entryPrice stopLoss positionType * q + commission) ∧
    (startingCapital ≠ 0 →
      riskPctOfCapital entryPrice stopLoss positionType quantity commission
          startingCapital =
        riskAmount entryPrice stopLoss positionType quantity commission
          / startingCapital * 100) ∧
    (riskFlagged entryPrice stopLoss positionType quantity commission
        startingCapital maxRiskPct = true ↔
      maxRiskPct < riskPctOfCapital entryPrice stopLoss positionType quantity
        commission startingCapital) := by
  refine ⟨rfl, ?_, ?_, ?_, ?_, ?_⟩
  · intro sl
    cases positionType
    · rfl
    · simp [riskPerShare, abs_sub_comm]
  · intro h
    unfold riskAmount
    rw [if_neg]
    rintro ⟨h1, h2⟩
    rcases h with h | h
    · exact h1 h
    · exact h2 h
  · intro h q hq
    unfold riskAmount
    rw [if_pos ⟨h, by simp [hq]⟩]
    simp [hq, jsNum]
  · intro h
    simp [riskPctOfCapital, h]
  · simp [riskFlagged]

/-- Witness for claim C7: scenario D, entry 50, stop 48, quantity 100,
    commission 5, capital 10000, max risk 2 percent: the risk amount is
    riskPerShare times quantity plus commission and the trade is flagged
    as exceeding the limit. -/
theorem risk_scenarioD :
    riskAmount 50 (some 48) PositionType.long (some 100) 5 =
      riskPerShare 50 (some 48) PositionType.long * 100 + 5 ∧
    riskFlagged 50 (some 48) PositionType.long (some 100) 5 10000 2 = true := by
  have h := risk_calculator_characterization 50 (some 48) PositionType.long
    (some 100) 5 10000 2
  have hps : riskPerShare 50 (some 48) PositionType.long = 2 := by
    rw [h.2.1 48, (by norm_num : (50 : ℚ) - 48 = 2),
      abs_of_pos (by norm_num : (0 : ℚ) < 2)]
  constructor
  · exact h.2.2.2.1 (by rw [hps]; norm_num) 100 rfl
  · apply h.2.2.2.2.2.mpr
    have hra : riskAmount 50 (some 48) PositionType.long (some 100) 5 = 205 := by
      rw [h.2.2.2.1 (by rw [hps]; norm_num) 100 rfl, hps]
      norm_num
    have hrp : riskPctOfCapital 50 (some 48) PositionType.long (some 100) 5
        10000 = 41 / 20 := by
      rw [h.2.2.2.2.1 (by norm_num), hra]
      norm_num
    rw [hrp]
    norm_num

/-- Counterexample to claim C7 as stated: with the stop equal to the entry
    the code returns a risk amount of 0, while the claimed unconditional
    formula gives the commission 5. -/
theorem riskAmount_claim_false :
    riskAmount 50 (some 50) PositionType.long (some 100) 5 = 0 ∧
    riskPerShare 50 (some 50) PositionType.long * 100 + 5 = 5 ∧
    riskAmount 50 (some 50) PositionType.long (some 100) 5 ≠
      riskPerShare 50 (some 50) PositionType.long * 100 + 5 := by
  have hz : riskPerShare 50 (some 50) PositionType.long = 0 := by
    simp [riskPerShare]
  have h0 : riskAmount 50 (some 50) PositionType.long (some 100) 5 = 0 := by
    simp [riskAmount, hz]
  refine ⟨h0, ?_, ?_⟩
  · rw [hz]
    norm_num
  · rw [h0, hz]
    norm_num

/-- Claim C8: the form is rejected exactly when the symbol is missing, or
    any of entry date, entry price, quantity is missing, or the exit price
    is present without an exit date; and every rejection leaves the trade
    collection unchanged. -/
theorem validate_rejects_iff (f : FormState) (id : String)
    (trades : List Trade) :
    (validate f ≠ none ↔
      (f.symbol = "" ∨ f.entryDate = none ∨ f.entryPrice = none ∨
        f.quantity = none ∨ (f.exitPrice ≠ none ∧ f.exitDate = none))) ∧
    (∀ r : String, validate f = some r →
      handleSubmit f id trades = trades) := by
  constructor
  · unfold validate
    split_ifs with h1 h2 h3 <;> simp_all
    tauto
  · intro r hr
    simp [handleSubmit, hr]

/-- Witness for claim C8: scenario C, a form with exit price 110 and no
    exit date is rejected and the one-trade collection stays unchanged. -/
theorem validate_scenarioC :
    handleSubmit formC ("id9") [openLongT] = [openLongT] ∧
    validate formC ≠ none := by
  have h := validate_rejects_iff formC ("id9") [openLongT]
  exact ⟨h.2 ("exit date required if exit price set") (by decide),
    h.1.mpr (Or.inr (Or.inr (Or.inr (Or.inr (by decide)))))⟩

/-- Claim C9, evaluated at the failing input: starting from a collection
    satisfying the uppercase invariant, saving an edit whose symbol was
    typed as tsla stores it verbatim, breaking the invariant - the edit
    path never applies the uppercase normalization. -/
theorem edit_breaks_uppercase_eval :
    symbolsUpper [openLongT] ∧
    editSave [openLongT] openLongT editedT = [editedT] ∧
    ¬ symbolsUpper [editedT] :=
  ⟨by decide, rfl, by decide⟩

/-- Claim C10: deleting an identifier keeps a subsequence of the original
    collection (relative order and values preserved), keeps exactly the
    trades whose id differs from the identifier, and is the identity when
    no trade carries the identifier. -/
theorem deleteTrade_frame (trades : List Trade) (i : String) :
    List.Sublist (deleteTrade trades i) trades ∧
    (∀ t : Trade, t ∈ deleteTrade trades i ↔ t ∈ trades ∧ t.id ≠ i) ∧
    ((∀ t ∈ trades, t.id ≠ i) → deleteTrade trades i = trades) := by
  refine ⟨List.filter_sublist _, ?_, ?_⟩
  · intro t
    simp [deleteTrade, List.mem_filter]
  · intro h
    unfold deleteTrade
    exact List.filter_eq_self.mpr (fun a ha => by simpa using h a ha)

/-- Witness for claim C10: deleting an identifier absent from a two-trade
    collection returns the collection unchanged. -/
theorem deleteTrade_frame_instance :
    deleteTrade [tA, tB] ("zzz") = [tA, tB] :=
  (deleteTrade_frame [tA, tB] ("zzz")).2.2 (by decide)

end SwingTrader
